import Mathlib

/-!
Verification development for the uploader-frontend repository.

Shallow embedding of:
  - src/utils/s3Utils.js   (presigned-URL expiry inspection)
  - src/services/api.js    (transports, multipart orchestration, API client)
  - src/App.jsx            (health check classification, file validation,
                            upload flow and error classification)

JavaScript numeric parsing (parseInt, NaN propagation) is modelled with
Option Int: none stands for NaN.  Date.UTC is modelled by the civil-calendar
day count (proleptic Gregorian), with JavaScript's month normalisation.
-/

namespace Uploader

/-! ## JavaScript primitives -/

/-- JS String.prototype.substring(a, b) for a ≤ b: clamps both ends. -/
def jsSubstring (s : String) (a b : Nat) : String :=
  String.mk ((s.data.take b).drop a)

/-- Value of a list of decimal digit characters. -/
def digitsToNat (ds : List Char) : Nat :=
  ds.foldl (fun acc c => acc * 10 + (c.toNat - 48)) 0

/-- JS parseInt with radix 10: skip leading whitespace, optional sign,
take leading digits; NaN (none) when no digits follow. -/
def parseIntJS (s : String) : Option Int :=
  let cs := s.data.dropWhile fun c => c == ' ' || c == '\t' || c == '\n' || c == '\r'
  match cs with
  | '-' :: r =>
    let ds := r.takeWhile Char.isDigit
    if ds.isEmpty then none else some (-(digitsToNat ds : Int))
  | '+' :: r =>
    let ds := r.takeWhile Char.isDigit
    if ds.isEmpty then none else some ((digitsToNat ds : Int))
  | r =>
    let ds := r.takeWhile Char.isDigit
    if ds.isEmpty then none else some ((digitsToNat ds : Int))

/-- Days since 1970-01-01 of civil date y-m-d (m in 1..12, d may overflow
its month, extrapolated linearly, matching ECMAScript MakeDay). -/
def daysFromCivil (y m d : Int) : Int :=
  let yy := if m ≤ 2 then y - 1 else y
  let era := Int.fdiv yy 400
  let yoe := yy - era * 400
  let mp := if m ≤ 2 then m + 9 else m - 3
  let doy := Int.fdiv (153 * mp + 2) 5 + d - 1
  let doe := yoe * 365 + Int.fdiv yoe 4 - Int.fdiv yoe 100 + doy
  era * 146097 + doe - 719468

/-- Date.UTC(y, m0, d, h, mi, s) in milliseconds; m0 is 0-based and is
normalised with floor semantics as in ECMAScript. -/
def jsDateUTC (y m0 d h mi s : Int) : Int :=
  let y2 := y + Int.fdiv m0 12
  let m := Int.emod m0 12 + 1
  (daysFromCivil y2 m d * 86400 + h * 3600 + mi * 60 + s) * 1000

/-! ## s3Utils.js -/

/-- Outcome of `new URL(presignedUrl)` followed by the two
`searchParams.get` calls: either the URL constructor throws, or it yields
the (possibly absent) X-Amz-Expires and X-Amz-Date parameter strings. -/
inductive UrlParseResult
  | fail
  | ok (expiresParam : Option String) (dateParam : Option String)
deriving DecidableEq, Repr

/-- getTime() of the Date built from the compact UTC timestamp string, as
in the source: six parseInt calls on fixed substrings, fed to Date.UTC;
none models NaN (an invalid date). -/
def signedTimeMs (dp : String) : Option Int :=
  match parseIntJS (jsSubstring dp 0 4), parseIntJS (jsSubstring dp 4 6),
        parseIntJS (jsSubstring dp 6 8), parseIntJS (jsSubstring dp 9 11),
        parseIntJS (jsSubstring dp 11 13), parseIntJS (jsSubstring dp 13 15) with
  | some y, some mo, some d, some h, some mi, some s =>
    some (jsDateUTC y (mo - 1) d h mi s)
  | _, _, _, _, _, _ => none

/-- isPresignedUrlExpired from s3Utils.js.  `now` is Date.now() in ms.
A missing or empty parameter is falsy and yields true ("assume expired");
a NaN expiry time makes `now > expiryTime` false, yielding false. -/
def isPresignedUrlExpired (u : UrlParseResult) (now : Int) : Bool :=
  match u with
  | .fail => true
  | .ok ep dp =>
    match ep, dp with
    | some e, some d =>
      if e = "" || d = "" then true
      else
        match signedTimeMs d, parseIntJS e with
        | some st, some ex => decide (now > st + ex * 1000)
        | _, _ => false
    | _, _ => true

/-- Result object of getUrlExpiryInfo.  Date fields carry the instant in
milliseconds (the source renders them with toISOString, which throws on an
invalid date — that throw is the last match arm below). -/
structure ExpiryInfo where
  valid : Bool
  message : Option String := none
  signedDateMs : Option Int := none
  expiryDateMs : Option Int := none
  expiresInSeconds : Option Int := none
  isExpired : Bool := false
  timeUntilExpiry : Option Int := none
deriving DecidableEq, Repr

/-- getUrlExpiryInfo from s3Utils.js.  Any throw inside the try block
(URL constructor, toISOString on an invalid date) lands in the catch and
yields valid := false. -/
def getUrlExpiryInfo (u : UrlParseResult) (now : Int) : ExpiryInfo :=
  match u with
  | .fail => { valid := false, message := some "Error parsing URL: URL constructor failed" }
  | .ok ep dp =>
    match ep, dp with
    | some e, some d =>
      if e = "" || d = "" then
        { valid := false, message := some "Invalid presigned URL format" }
      else
        match signedTimeMs d, parseIntJS e with
        | some st, some ex =>
          let expiryTime := st + ex * 1000
          let isExp := decide (now > expiryTime)
          { valid := true
            signedDateMs := some st
            expiryDateMs := some expiryTime
            expiresInSeconds := some ex
            isExpired := isExp
            timeUntilExpiry := some (if isExp then 0 else Int.fdiv (expiryTime - now) 1000) }
        | _, _ =>
          { valid := false, message := some "Error parsing URL: invalid date" }
    | _, _ => { valid := false, message := some "Invalid presigned URL format" }

/-! ## String search (JS String.prototype.includes) -/

/-- listStartsWith n h: n is a leading run of h. -/
def listStartsWith : List Char → List Char → Bool
  | [], _ => true
  | _ :: _, [] => false
  | a :: as, b :: bs => a == b && listStartsWith as bs

/-- occursIn n h: n occurs contiguously somewhere in h. -/
def occursIn (n : List Char) : List Char → Bool
  | [] => n.isEmpty
  | c :: t => listStartsWith n (c :: t) || occursIn n t

/-- JS hay.includes(needle). -/
def stringIncludes (hay needle : String) : Bool :=
  occursIn needle.data hay.data

deriving instance DecidableEq for Except

/-! ## api.js transports -/

/-- Terminal XMLHttpRequest event for one transfer: a load with a status,
a statusText and the optional ETag response header, a network error, or an
abort. -/
inductive XhrEvent
  | load (status : Nat) (statusText : String) (etag : Option String)
  | netError
  | aborted
deriving DecidableEq, Repr

/-- uploadFileToS3 from api.js, at its terminal event: resolves on 2xx,
otherwise rejects with the source's error message. -/
def uploadFileToS3 (e : XhrEvent) : Except String Unit :=
  match e with
  | .load s st _ =>
    if 200 ≤ s ∧ s < 300 then .ok ()
    else .error ("Upload failed with status " ++ toString s ++ ": " ++ st)
  | .netError => .error "Upload failed due to network error"
  | .aborted => .error "Upload was aborted"

/-- uploadPartToS3 from api.js: on 2xx it requires a truthy ETag header
(absent or empty string rejects with the missing-token message); any other
status or a network error rejects. -/
def uploadPartToS3 (e : XhrEvent) : Except String String :=
  match e with
  | .load s st etag =>
    if 200 ≤ s ∧ s < 300 then
      match etag with
      | some t => if t = "" then .error "No ETag received from S3" else .ok t
      | none => .error "No ETag received from S3"
    else .error ("Part upload failed with status " ++ toString s ++ ": " ++ st)
  | .netError => .error "Part upload failed due to network error"
  | .aborted => .error "Part upload was aborted"

/-! ## Multipart orchestration (uploadMultipartFile) -/

/-- One entry of multipartData.partUrls from the coordinator. -/
structure PartUrl where
  partNumber : Nat
  presignedUrl : String
deriving DecidableEq, Repr

/-- One entry of the completion manifest: { PartNumber, ETag }. -/
structure CompletedPart where
  PartNumber : Nat
  ETag : String
deriving DecidableEq, Repr

/-- file.slice(i*partSize, min(i*partSize + partSize, fileSize)).size. -/
def chunkAt (fileSize partSize i : Nat) : Nat :=
  min (i * partSize + partSize) fileSize - i * partSize

/-- Math.round(uploaded / fileSize * 100) on exact rationals. -/
def jsRound100 (uploaded fileSize : Nat) : Nat :=
  (uploaded * 200 + fileSize) / (2 * fileSize)

/-- Observable outcome of one uploadMultipartFile run: the part numbers
attempted (in loop order), the completedParts accumulated before any
failure, each value passed to onProgress, and the resolution
(the completed-parts array) or the rejection message. -/
structure MultipartRun where
  attempted : List Nat
  completedParts : List CompletedPart
  progressReports : List Nat
  outcome : Except String (List CompletedPart)
deriving Repr

/-- Loop of uploadMultipartFile: i is the loop index, uploaded the running
uploadedBytes; results gives each iteration's uploadPartToS3 outcome. -/
def multipartGo (fileSize partSize : Nat) (results : Nat → Except String String) :
    List PartUrl → Nat → Nat → MultipartRun
  | [], _, _ => { attempted := [], completedParts := [], progressReports := [], outcome := .ok [] }
  | pu :: rest, i, uploaded =>
    match results i with
    | .ok etag =>
      let cp : CompletedPart := { PartNumber := pu.partNumber, ETag := etag }
      let uploaded2 := uploaded + chunkAt fileSize partSize i
      let r := multipartGo fileSize partSize results rest (i + 1) uploaded2
      { attempted := pu.partNumber :: r.attempted
        completedParts := cp :: r.completedParts
        progressReports := jsRound100 uploaded2 fileSize :: r.progressReports
        outcome := r.outcome.map fun ps => cp :: ps }
    | .error m =>
      { attempted := [pu.partNumber]
        completedParts := []
        progressReports := []
        outcome := .error ("Failed to upload part " ++ toString pu.partNumber ++ ": " ++ m) }

/-- uploadMultipartFile from api.js, with the per-part transfer outcomes
supplied as the results of uploadPartToS3 on each iteration's terminal
XHR event. -/
def uploadMultipartFile (fileSize : Nat) (partUrls : List PartUrl) (partSize : Nat)
    (events : Nat → XhrEvent) : MultipartRun :=
  multipartGo fileSize partSize (fun i => uploadPartToS3 (events i)) partUrls 0 0

/-! ## ApiClient.request / health check (api.js + App.jsx) -/

/-- Body of the health endpoint's JSON response. -/
structure HealthBody where
  success : Bool
  s3Configured : Bool
deriving DecidableEq, Repr

/-- Outcome of fetch + response.json() for the health request: the fetch
may reject, the body may fail to parse as JSON, or we get a status and a
parsed body. -/
inductive FetchOutcome
  | netFail
  | resp (status : Nat) (body : Option HealthBody)
deriving DecidableEq, Repr

/-- ApiClient.request for the health endpoint: json() throws on an
unparsable body; then a non-ok (outside 2xx) status throws; otherwise the
parsed data is returned.  Every throw is re-thrown to the caller. -/
def requestHealth (f : FetchOutcome) : Except String HealthBody :=
  match f with
  | .netFail => .error "fetch failed"
  | .resp s body =>
    match body with
    | none => .error "response.json failed"
    | some b =>
      if 200 ≤ s ∧ s < 300 then .ok b
      else .error ("HTTP error! status: " ++ toString s)

/-- The backendStatus values of App.jsx. -/
inductive BackendStatus
  | checking
  | ready
  | s3NotConfigured
  | offline
deriving DecidableEq, Repr

/-- checkBackendHealth from App.jsx: any rejection is caught and mapped to
offline; a fulfilled request is ready when success and s3Configured hold,
otherwise s3-not-configured. -/
def checkBackendHealth (f : FetchOutcome) : BackendStatus :=
  match requestHealth f with
  | .error _ => .offline
  | .ok r => if r.success && r.s3Configured then .ready else .s3NotConfigured

/-! ## App.jsx upload flow (handleFile) -/

/-- The user-facing classification App.jsx derives from a caught error's
message in its catch block. -/
inductive UserError
  | accessDenied
  | networkProblem
  | invalidFileType
  | other (msg : String)
deriving DecidableEq, Repr

/-- The message-classification chain of handleFile's catch block. -/
def classifyUploadError (msg : String) : UserError :=
  if stringIncludes msg "403" then .accessDenied
  else if stringIncludes msg "network" then .networkProblem
  else if stringIncludes msg "Invalid file type" then .invalidFileType
  else .other msg

/-- Classification of a single-shot transfer's terminal event, as the
composition of uploadFileToS3 with handleFile's catch block (none when the
transfer succeeded and no error is raised). -/
def classifySingleShot (e : XhrEvent) : Option UserError :=
  match uploadFileToS3 e with
  | .ok _ => none
  | .error m => some (classifyUploadError m)

/-- The selected File's fields consulted by handleFile. -/
structure FileMeta where
  name : String
  type : String
  size : Nat
deriving DecidableEq, Repr

/-- Externally observable network actions of one handleFile run, in
order: coordinator calls and storage-backend PUTs. -/
inductive TraceEvent
  | callInitiateMultipart (fileName contentType : String) (fileSize : Nat)
  | callCompleteMultipart (uploadId : String) (parts : List CompletedPart)
  | callAbortMultipart (uploadId : String)
  | callGeneratePresignedUrl (fileName contentType : String) (fileSize : Nat)
  | callConfirmUpload (uploadId : String)
  | putPart (partNumber : Nat)
  | putSingle
deriving DecidableEq, Repr

/-- data of the multipart-initiate response. -/
structure InitData where
  uploadId : String
  partUrls : List PartUrl
  partSize : Nat
deriving Repr

/-- Multipart-initiate response. -/
structure InitResponse where
  success : Bool
  data : InitData
deriving Repr

/-- Multipart-complete / confirm response. -/
structure FinishResponse where
  success : Bool
  downloadUrl : String
deriving DecidableEq, Repr

/-- data of the presigned-url response. -/
structure UrlData where
  uploadId : String
  presignedUrl : String
deriving DecidableEq, Repr

/-- Presigned-url response. -/
structure UrlResponse where
  success : Bool
  data : UrlData
deriving DecidableEq, Repr

/-- Environment of one handleFile run: the coordinator's responses and the
storage backend's terminal XHR events. -/
structure Env where
  initResp : InitResponse
  completeResp : FinishResponse
  partEvents : Nat → XhrEvent
  urlResp : UrlResponse
  singleEvent : XhrEvent
  confirmResp : FinishResponse

/-- Terminal outcome of one handleFile run. -/
inductive AppOutcome
  | notStarted
  | done (downloadUrl : String)
  | errorOut (msg : String)
deriving DecidableEq, Repr

/-- 50 MB multipart threshold of App.jsx. -/
def MULTIPART_THRESHOLD : Nat := 50 * 1024 * 1024

/-- 30 GB limit of App.jsx for non-video files. -/
def maxFileSize : Nat := 30 * 1024 * 1024 * 1024

/-- handleFile from App.jsx, as the ordered trace of its network actions
and its terminal outcome.  Validation (backend readiness, then the
non-video 30 GB limit) runs before any network action; then the mode is
selected by size against the 50 MB threshold and the selected flow runs,
with the first raised error caught into the error outcome. -/
def handleFile (backendStatus : BackendStatus) (file : FileMeta) (env : Env) :
    List TraceEvent × AppOutcome :=
  if backendStatus ≠ .ready then ([], .notStarted)
  else if ¬ listStartsWith "video/".data file.type.data ∧ file.size > maxFileSize then
    ([], .notStarted)
  else if file.size > MULTIPART_THRESHOLD then
    let initCall := TraceEvent.callInitiateMultipart file.name file.type file.size
    if ¬ env.initResp.success then
      ([initCall], .errorOut "Failed to initiate multipart upload")
    else
      let d := env.initResp.data
      let r := uploadMultipartFile file.size d.partUrls d.partSize env.partEvents
      let preTrace := initCall :: r.attempted.map TraceEvent.putPart
      match r.outcome with
      | .error m => (preTrace, .errorOut m)
      | .ok parts =>
        let trace := preTrace ++ [TraceEvent.callCompleteMultipart d.uploadId parts]
        if env.completeResp.success then (trace, .done env.completeResp.downloadUrl)
        else (trace, .errorOut "Failed to complete multipart upload")
  else
    let urlCall := TraceEvent.callGeneratePresignedUrl file.name file.type file.size
    if ¬ env.urlResp.success then
      ([urlCall], .errorOut "Failed to generate presigned URL")
    else
      match uploadFileToS3 env.singleEvent with
      | .error m => ([urlCall, TraceEvent.putSingle], .errorOut m)
      | .ok _ =>
        let trace := [urlCall, TraceEvent.putSingle,
                      TraceEvent.callConfirmUpload env.urlResp.data.uploadId]
        if env.confirmResp.success then (trace, .done env.confirmResp.downloadUrl)
        else (trace, .errorOut "Failed to confirm upload")

/-- Number of abort-multipart coordinator calls in a trace. -/
def countAborts (tr : List TraceEvent) : Nat :=
  tr.countP fun e =>
    match e with
    | .callAbortMultipart _ => true
    | _ => false

/-- Number of complete-multipart coordinator calls in a trace. -/
def countCompletes (tr : List TraceEvent) : Nat :=
  tr.countP fun e =>
    match e with
    | .callCompleteMultipart _ _ => true
    | _ => false

/-! ## Helper definitions for stating the orchestration lemmas -/

/-- Manifest the loop builds when every transfer from loop index i on
succeeds: one entry per part URL, pairing its partNumber with the token
of its iteration. -/
def manifestFrom (T : Nat → String) : List PartUrl → Nat → List CompletedPart
  | [], _ => []
  | pu :: rest, i => { PartNumber := pu.partNumber, ETag := T i } :: manifestFrom T rest (i + 1)

/-- Cumulative bytes of the n chunks starting at chunk index i0. -/
def cumFrom (fileSize partSize i0 : Nat) : Nat → Nat
  | 0 => 0
  | n + 1 => cumFrom fileSize partSize i0 n + chunkAt fileSize partSize (i0 + n)

lemma cumFrom_shift (fileSize partSize i0 : Nat) :
    ∀ n, cumFrom fileSize partSize i0 (n + 1) =
      chunkAt fileSize partSize i0 + cumFrom fileSize partSize (i0 + 1) n := by
  intro n
  induction n with
  | zero => simp [cumFrom]
  | succ n ih =>
    show cumFrom fileSize partSize i0 (n + 1) + chunkAt fileSize partSize (i0 + (n + 1)) = _
    rw [ih, cumFrom]
    have : i0 + (n + 1) = i0 + 1 + n := by omega
    rw [this, Nat.add_assoc]

/-- Progress values the loop reports when the first n transfers starting
at loop index i0 (with uploadedBytes u0 beforehand) all succeed: one value
per completed part, the rounded percentage of the cumulative bytes. -/
def reportsOf (fileSize partSize : Nat) (i0 u0 n : Nat) : List Nat :=
  (List.range n).map fun j =>
    jsRound100 (u0 + cumFrom fileSize partSize i0 (j + 1)) fileSize

lemma reportsOf_cons (fileSize partSize i0 u0 n : Nat) :
    reportsOf fileSize partSize i0 u0 (n + 1) =
      jsRound100 (u0 + chunkAt fileSize partSize i0) fileSize ::
        reportsOf fileSize partSize (i0 + 1) (u0 + chunkAt fileSize partSize i0) n := by
  unfold reportsOf
  rw [List.range_succ_eq_map, List.map_cons, List.map_map]
  congr 1
  case _ => simp [cumFrom]
  apply List.map_congr_left
  intro j _
  simp only [Function.comp_apply]
  rw [cumFrom_shift fileSize partSize i0 (j + 1)]
  congr 1
  omega

/-- When every transfer of the remaining parts succeeds, the loop attempts
every part in order, completes them all, reports once per part, and
resolves with the full manifest. -/
lemma multipartGo_all_ok (fileSize partSize : Nat) (results : Nat → Except String String)
    (T : Nat → String) :
    ∀ (l : List PartUrl) (i0 u0 : Nat),
      (∀ j, j < l.length → results (i0 + j) = .ok (T (i0 + j))) →
      multipartGo fileSize partSize results l i0 u0 =
        { attempted := l.map PartUrl.partNumber
          completedParts := manifestFrom T l i0
          progressReports := reportsOf fileSize partSize i0 u0 l.length
          outcome := .ok (manifestFrom T l i0) } := by
  intro l
  induction l with
  | nil =>
    intro i0 u0 _
    simp [multipartGo, manifestFrom, reportsOf]
  | cons pu rest ih =>
    intro i0 u0 hok
    have h0 : results i0 = .ok (T i0) := by
      have := hok 0 (by simp)
      simpa using this
    have hrest : ∀ j, j < rest.length → results (i0 + 1 + j) = .ok (T (i0 + 1 + j)) := by
      intro j hj
      have := hok (j + 1) (by simp; omega)
      have e : i0 + (j + 1) = i0 + 1 + j := by omega
      rw [e] at this
      exact this
    simp only [multipartGo, h0]
    rw [ih (i0 + 1) (u0 + chunkAt fileSize partSize i0) hrest]
    simp [manifestFrom, reportsOf_cons, Except.map]

/-- When the transfer at loop offset k fails after the first k succeed, the
loop attempts exactly the first k+1 parts, completes the first k, reports
once per completed part, and rejects with the wrapped message of part
k+1's URL entry. -/
lemma multipartGo_fail (fileSize partSize : Nat) (results : Nat → Except String String)
    (T : Nat → String) (m : String) :
    ∀ (l : List PartUrl) (k i0 u0 : Nat) (hk : k < l.length),
      (∀ j, j < k → results (i0 + j) = .ok (T (i0 + j))) →
      results (i0 + k) = .error m →
      multipartGo fileSize partSize results l i0 u0 =
        { attempted := (l.take (k + 1)).map PartUrl.partNumber
          completedParts := manifestFrom T (l.take k) i0
          progressReports := reportsOf fileSize partSize i0 u0 k
          outcome := .error ("Failed to upload part " ++
            toString (l.get ⟨k, hk⟩).partNumber ++ ": " ++ m) } := by
  intro l
  induction l with
  | nil =>
    intro k i0 u0 hk
    exact absurd hk (by simp)
  | cons pu rest ih =>
    intro k i0 u0 hk hok herr
    match k with
    | 0 =>
      have h0 : results i0 = .error m := by simpa using herr
      simp only [multipartGo, h0]
      simp [manifestFrom, reportsOf]
    | k' + 1 =>
      have h0 : results i0 = .ok (T i0) := by
        have := hok 0 (by omega)
        simpa using this
      have hk' : k' < rest.length := by
        simpa using hk
      have hok' : ∀ j, j < k' → results (i0 + 1 + j) = .ok (T (i0 + 1 + j)) := by
        intro j hj
        have := hok (j + 1) (by omega)
        have e : i0 + (j + 1) = i0 + 1 + j := by omega
        rw [e] at this
        exact this
      have herr' : results (i0 + 1 + k') = .error m := by
        have e : i0 + (k' + 1) = i0 + 1 + k' := by omega
        rw [e] at herr
        exact herr
      simp only [multipartGo, h0]
      rw [ih k' (i0 + 1) (u0 + chunkAt fileSize partSize i0) hk' hok' herr']
      simp [manifestFrom, reportsOf_cons, List.take_succ_cons, Except.map]

/-! ## String-search lemmas -/

lemma listStartsWith_append (n : List Char) :
    ∀ (l t : List Char), listStartsWith n l = true → listStartsWith n (l ++ t) = true := by
  induction n with
  | nil => intro l t _; rfl
  | cons a as ih =>
    intro l t h
    match l with
    | [] => exact absurd h (by simp [listStartsWith])
    | b :: bs =>
      simp only [listStartsWith, Bool.and_eq_true] at h
      simp only [List.cons_append, listStartsWith, Bool.and_eq_true]
      exact ⟨h.1, ih bs t h.2⟩

lemma occursIn_nil_of_isEmpty (n : List Char) (h : n.isEmpty = true) :
    ∀ t, occursIn n t = true := by
  intro t
  match t with
  | [] => simpa [occursIn] using h
  | c :: t' =>
    have : n = [] := by
      match n with
      | [] => rfl
      | _ :: _ => simp at h
    subst this
    simp [occursIn, listStartsWith]

lemma occursIn_append_left (n : List Char) :
    ∀ (l t : List Char), occursIn n l = true → occursIn n (l ++ t) = true := by
  intro l
  induction l with
  | nil =>
    intro t h
    simp only [occursIn] at h
    simpa using occursIn_nil_of_isEmpty n h t
  | cons c l' ih =>
    intro t h
    simp only [occursIn, Bool.or_eq_true] at h
    simp only [List.cons_append, occursIn, Bool.or_eq_true]
    cases h with
    | inl h =>
      exact Or.inl (by simpa using listStartsWith_append n (c :: l') t h)
    | inr h => exact Or.inr (ih t h)

/-! ## Index-shape lemmas for coordinator-numbered part URLs -/

lemma manifestFrom_range (T : Nat → String) :
    ∀ (l : List PartUrl) (i0 : Nat),
      (∀ j (h : j < l.length), (l.get ⟨j, h⟩).partNumber = i0 + j + 1) →
      manifestFrom T l i0 =
        (List.range l.length).map fun j =>
          { PartNumber := i0 + j + 1, ETag := T (i0 + j) } := by
  intro l
  induction l with
  | nil => intro i0 _; rfl
  | cons pu rest ih =>
    intro i0 hnum
    have h0 : pu.partNumber = i0 + 1 := by
      have := hnum 0 (by simp)
      simpa using this
    have hrest : ∀ j (h : j < rest.length),
        (rest.get ⟨j, h⟩).partNumber = (i0 + 1) + j + 1 := by
      intro j h
      have := hnum (j + 1) (by simp; omega)
      simp only [List.get_cons_succ] at this
      rw [this]
      omega
    rw [manifestFrom, ih (i0 + 1) hrest]
    simp only [List.length_cons, List.range_succ_eq_map, List.map_cons, List.map_map]
    congr 1
    case _ => simp [h0]
    apply List.map_congr_left
    intro j _
    simp only [Function.comp_apply]
    congr 1
    case _ => omega
    exact congrArg T (by omega)

lemma map_partNumber_range :
    ∀ (l : List PartUrl) (i0 : Nat),
      (∀ j (h : j < l.length), (l.get ⟨j, h⟩).partNumber = i0 + j + 1) →
      l.map PartUrl.partNumber = (List.range l.length).map fun j => i0 + j + 1 := by
  intro l
  induction l with
  | nil => intro i0 _; rfl
  | cons pu rest ih =>
    intro i0 hnum
    have h0 : pu.partNumber = i0 + 1 := by
      have := hnum 0 (by simp)
      simpa using this
    have hrest : ∀ j (h : j < rest.length),
        (rest.get ⟨j, h⟩).partNumber = (i0 + 1) + j + 1 := by
      intro j h
      have := hnum (j + 1) (by simp; omega)
      simp only [List.get_cons_succ] at this
      rw [this]
      omega
    rw [List.map_cons, ih (i0 + 1) hrest]
    simp only [List.length_cons, List.range_succ_eq_map, List.map_cons, List.map_map,
      List.cons.injEq]
    refine ⟨by simpa using h0, ?_⟩
    apply List.map_congr_left
    intro j _
    simp only [Function.comp_apply]
    omega

/-! ## Claim theorems -/

/-- C2: for every signed URL whose compact UTC signing timestamp and
integer duration parse, the expiry instant is the signing timestamp plus
the duration in seconds, and both inspectors classify the URL as expired
exactly when now is strictly greater than that instant (equality is still
valid); concretely, for timestamp 20240101T000000Z and duration 604800,
inspecting at 2024-01-08T00:00:01Z is expired with 0 seconds remaining and
inspecting at 2024-01-07T23:59:59Z is valid with 1 second remaining. -/
theorem c2_expiry_semantics (e d : String) (st ex now : Int)
    (he : e ≠ "") (hd : d ≠ "")
    (hst : signedTimeMs d = some st) (hex : parseIntJS e = some ex) :
    ((getUrlExpiryInfo (.ok (some e) (some d)) now).signedDateMs = some st
      ∧ (getUrlExpiryInfo (.ok (some e) (some d)) now).expiryDateMs = some (st + ex * 1000)
      ∧ ((getUrlExpiryInfo (.ok (some e) (some d)) now).isExpired = true ↔
          now > st + ex * 1000)
      ∧ (isPresignedUrlExpired (.ok (some e) (some d)) now = true ↔
          now > st + ex * 1000))
    ∧ getUrlExpiryInfo (.ok (some "604800") (some "20240101T000000Z")) 1704672001000 =
        { valid := true, signedDateMs := some 1704067200000,
          expiryDateMs := some 1704672000000, expiresInSeconds := some 604800,
          isExpired := true, timeUntilExpiry := some 0 }
    ∧ getUrlExpiryInfo (.ok (some "604800") (some "20240101T000000Z")) 1704671999000 =
        { valid := true, signedDateMs := some 1704067200000,
          expiryDateMs := some 1704672000000, expiresInSeconds := some 604800,
          isExpired := false, timeUntilExpiry := some 1 } := by
  refine ⟨⟨?_, ?_, ?_, ?_⟩, by decide, by decide⟩ <;>
    simp [getUrlExpiryInfo, isPresignedUrlExpired, he, hd, hst, hex]

/-- C2 witness: the general part instantiated at the concrete scenario. -/
theorem c2_expiry_semantics_witness :
    (getUrlExpiryInfo (.ok (some "604800") (some "20240101T000000Z"))
        1704672001000).isExpired = true ↔
      (1704672001000 : Int) > 1704067200000 + 604800 * 1000 :=
  (c2_expiry_semantics "604800" "20240101T000000Z" 1704067200000 604800 1704672001000
    (by decide) (by decide) (by decide) (by decide)).1.2.2.1

/-- C7: the expiry-information projection never throws and classifies every
failure as invalid: a URL-constructor failure, the absence of either query
parameter, and a numeric parsing failure of either parameter all yield
valid := false. -/
theorem c7_inspector_fails_soft (u : UrlParseResult) (now : Int) :
    (u = .fail → (getUrlExpiryInfo u now).valid = false)
    ∧ (∀ ep dp, u = .ok ep dp → ep = none ∨ dp = none →
        (getUrlExpiryInfo u now).valid = false)
    ∧ (∀ e d, u = .ok (some e) (some d) →
        signedTimeMs d = none ∨ parseIntJS e = none →
        (getUrlExpiryInfo u now).valid = false) := by
  refine ⟨?_, ?_, ?_⟩
  · intro h; subst h; rfl
  · intro ep dp h hnone
    subst h
    rcases hnone with h1 | h1
    · subst h1; rfl
    · subst h1; cases ep <;> rfl
  · intro e d h hor
    subst h
    by_cases he : e = ""
    · simp [getUrlExpiryInfo, he]
    · by_cases hd : d = ""
      · simp [getUrlExpiryInfo, hd]
      · cases hst : signedTimeMs d with
        | none => simp [getUrlExpiryInfo, he, hd, hst]
        | some st =>
          rcases hor with h1 | h1
          · rw [hst] at h1; cases h1
          · simp [getUrlExpiryInfo, he, hd, hst, h1]

/-- C7 witness: a URL-constructor failure yields the invalid
classification. -/
theorem c7_inspector_fails_soft_witness :
    (getUrlExpiryInfo .fail 0).valid = false :=
  (c7_inspector_fails_soft .fail 0).1 rfl

/-- C9 counterexample: with both parameters present but a non-numeric
signing timestamp, the boolean check returns false (not expired) while the
projection reports valid := false — so false is not equivalent to the
projection saying valid and not expired, refuting the claimed agreement. -/
theorem c9_counterexample :
    isPresignedUrlExpired (.ok (some "604800") (some "XXXXXXXXXXXXXXXX")) 0 = false
    ∧ (getUrlExpiryInfo (.ok (some "604800") (some "XXXXXXXXXXXXXXXX")) 0).valid
        = false := by
  decide

/-- C9 amended: the boolean check and the projection agree whenever the
URL fails to parse, a parameter is missing or empty, or all numeric parses
succeed; but when both parameters are present and non-empty and a numeric
parse fails, the boolean check returns false while the projection reports
valid := false. -/
theorem c9_agreement (u : UrlParseResult) (now : Int) :
    (u = .fail →
      isPresignedUrlExpired u now = true ∧ (getUrlExpiryInfo u now).valid = false)
    ∧ (∀ ep dp, u = .ok ep dp →
        ep = none ∨ dp = none ∨ ep = some "" ∨ dp = some "" →
        isPresignedUrlExpired u now = true ∧ (getUrlExpiryInfo u now).valid = false)
    ∧ (∀ e d st ex, u = .ok (some e) (some d) → e ≠ "" → d ≠ "" →
        signedTimeMs d = some st → parseIntJS e = some ex →
        (getUrlExpiryInfo u now).valid = true
          ∧ isPresignedUrlExpired u now = (getUrlExpiryInfo u now).isExpired)
    ∧ (∀ e d, u = .ok (some e) (some d) → e ≠ "" → d ≠ "" →
        signedTimeMs d = none ∨ parseIntJS e = none →
        isPresignedUrlExpired u now = false
          ∧ (getUrlExpiryInfo u now).valid = false) := by
  refine ⟨?_, ?_, ?_, ?_⟩
  · intro h; subst h; exact ⟨rfl, rfl⟩
  · intro ep dp h hcase
    subst h
    rcases hcase with h1 | h1 | h1 | h1
    · subst h1; exact ⟨rfl, rfl⟩
    · subst h1; cases ep <;> exact ⟨rfl, rfl⟩
    · subst h1
      cases dp with
      | none => exact ⟨rfl, rfl⟩
      | some d => constructor <;> simp [isPresignedUrlExpired, getUrlExpiryInfo]
    · subst h1
      cases ep with
      | none => exact ⟨rfl, rfl⟩
      | some e => constructor <;> simp [isPresignedUrlExpired, getUrlExpiryInfo]
  · intro e d st ex h he hd hst hex
    subst h
    constructor <;> simp [isPresignedUrlExpired, getUrlExpiryInfo, he, hd, hst, hex]
  · intro e d h he hd hor
    subst h
    cases hst : signedTimeMs d with
    | none =>
      constructor <;> simp [isPresignedUrlExpired, getUrlExpiryInfo, he, hd, hst]
    | some st =>
      rcases hor with h1 | h1
      · rw [hst] at h1; cases h1
      · constructor <;> simp [isPresignedUrlExpired, getUrlExpiryInfo, he, hd, hst, h1]

/-- C9 amended witness: agreement holds at a URL-constructor failure. -/
theorem c9_agreement_witness :
    isPresignedUrlExpired .fail 0 = true ∧ (getUrlExpiryInfo .fail 0).valid = false :=
  (c9_agreement .fail 0).1 rfl

lemma string_data_append (a b : String) : (a ++ b).data = a.data ++ b.data := rfl

set_option maxRecDepth 10000 in
set_option maxHeartbeats 4000000 in
/-- For every HTTP status below 600 outside the 2xx range other than 403,
the single-shot failure is classified generically, never as access
denied. -/
lemma no403_below600 : ∀ s, s < 600 → (s < 200 ∨ 300 ≤ s) → s ≠ 403 →
    classifySingleShot (.load s "" none) ≠ some .accessDenied := by
  decide

/-- C5: a single-shot transfer answered with HTTP 403 is surfaced through
the distinct access-denied classification (whatever the status text),
while any other non-2xx status below 600 gets the generic classification,
not access-denied. -/
theorem c5_forbidden_distinct (st : String) (s : Nat) (h600 : s < 600)
    (hnot2xx : s < 200 ∨ 300 ≤ s) (hne : s ≠ 403) :
    classifySingleShot (.load 403 st none) = some .accessDenied
    ∧ classifySingleShot (.load s "" none) ≠ some .accessDenied := by
  constructor
  · have h1 : ¬(200 ≤ 403 ∧ 403 < 300) := by omega
    simp only [classifySingleShot, uploadFileToS3]
    rw [if_neg h1]
    simp only [classifyUploadError, stringIncludes]
    have hmsg : ("Upload failed with status " ++ toString 403 ++ ": " ++ st).data
        = ("Upload failed with status " ++ toString 403 ++ ": ").data ++ st.data := rfl
    have hocc : occursIn "403".data
        ("Upload failed with status " ++ toString 403 ++ ": " ++ st).data = true := by
      rw [hmsg]
      exact occursIn_append_left _ _ _ (by decide)
    rw [if_pos hocc]
  · exact no403_below600 s h600 hnot2xx hne

/-- C5 witness: instantiated at status text "Forbidden" and status 500. -/
theorem c5_forbidden_distinct_witness :
    classifySingleShot (.load 403 "Forbidden" none) = some .accessDenied
    ∧ classifySingleShot (.load 500 "" none) ≠ some .accessDenied :=
  c5_forbidden_distinct "Forbidden" 500 (by decide) (by decide) (by decide)

/-- C8: a segment transfer answered 2xx without an ETag header (or with an
empty one) fails with the distinct missing-token rejection rather than
succeeding, and a segment transfer succeeds only when it returns the
(non-empty) token carried by the response. -/
theorem c8_missing_token (s : Nat) (st : String) (tag : Option String)
    (h2xx : 200 ≤ s ∧ s < 300) :
    (tag = none ∨ tag = some "" →
      uploadPartToS3 (.load s st tag) = .error "No ETag received from S3")
    ∧ (∀ t, uploadPartToS3 (.load s st tag) = .ok t → tag = some t ∧ t ≠ "") := by
  constructor
  · intro hcase
    rcases hcase with h1 | h1 <;> subst h1 <;>
      simp [uploadPartToS3, if_pos h2xx]
  · intro t hok
    simp only [uploadPartToS3] at hok
    rw [if_pos h2xx] at hok
    cases tag with
    | none => simp at hok
    | some u =>
      by_cases hu : u = ""
      · simp [hu] at hok
      · simp [hu] at hok
        subst hok
        exact ⟨rfl, hu⟩

/-- C8 witness: at status 200 with no ETag header the missing-token
rejection is raised. -/
theorem c8_missing_token_witness :
    uploadPartToS3 (.load 200 "OK" none) = .error "No ETag received from S3" :=
  (c8_missing_token 200 "OK" none (by decide)).1 (Or.inl rfl)

/-- C6 counterexample: a health-check response with 4xx status 404 (even
one whose body says storage is configured) is classified offline, not
s3-not-configured, refuting the claimed 4xx classification. -/
theorem c6_counterexample :
    checkBackendHealth (.resp 404 (some { success := true, s3Configured := true }))
        = .offline
    ∧ checkBackendHealth (.resp 404 (some { success := true, s3Configured := true }))
        ≠ .s3NotConfigured := by
  decide

/-- C6 amended: a health check that cannot reach the endpoint yields the
offline status value rather than an exception escaping to the caller, and
any non-2xx response — 4xx included — also yields offline; the
s3-not-configured status arises only from a 2xx response whose body lacks
success or s3Configured. -/
theorem c6_health_classification (f : FetchOutcome) :
    (f = .netFail → checkBackendHealth f = .offline)
    ∧ (∀ s b, f = .resp s b → ¬(200 ≤ s ∧ s < 300) → checkBackendHealth f = .offline)
    ∧ (∀ s b, f = .resp s (some b) → 200 ≤ s ∧ s < 300 →
        b.success = false ∨ b.s3Configured = false →
        checkBackendHealth f = .s3NotConfigured) := by
  refine ⟨?_, ?_, ?_⟩
  · intro h; subst h; rfl
  · intro s b h hs
    subst h
    cases b with
    | none => rfl
    | some b => simp [checkBackendHealth, requestHealth, if_neg hs]
  · intro s b h hs hflag
    subst h
    rcases hflag with h1 | h1 <;>
      simp [checkBackendHealth, requestHealth, if_pos hs, h1]

/-- C6 amended witness: an unreachable endpoint is classified offline. -/
theorem c6_health_classification_witness :
    checkBackendHealth .netFail = .offline :=
  (c6_health_classification .netFail).1 rfl

/-! ## handleFile reduction lemmas -/

lemma handleFile_multipart (file : FileMeta) (env : Env)
    (hv : listStartsWith "video/".data file.type.data = true)
    (hs : file.size > MULTIPART_THRESHOLD)
    (hi : env.initResp.success = true) :
    handleFile .ready file env =
      match (uploadMultipartFile file.size env.initResp.data.partUrls
          env.initResp.data.partSize env.partEvents).outcome with
      | .error m =>
        (.callInitiateMultipart file.name file.type file.size ::
          (uploadMultipartFile file.size env.initResp.data.partUrls
            env.initResp.data.partSize env.partEvents).attempted.map TraceEvent.putPart,
         .errorOut m)
      | .ok parts =>
        (.callInitiateMultipart file.name file.type file.size ::
          (uploadMultipartFile file.size env.initResp.data.partUrls
            env.initResp.data.partSize env.partEvents).attempted.map TraceEvent.putPart ++
          [.callCompleteMultipart env.initResp.data.uploadId parts],
         if env.completeResp.success then AppOutcome.done env.completeResp.downloadUrl
         else AppOutcome.errorOut "Failed to complete multipart upload") := by
  have h1 : ¬((BackendStatus.ready : BackendStatus) ≠ .ready) := by simp
  have h2 : ¬(¬(listStartsWith "video/".data file.type.data = true)
      ∧ file.size > maxFileSize) := by simp [hv]
  have h4 : ¬¬(env.initResp.success = true) := by simp [hi]
  rw [handleFile, if_neg h1, if_neg h2, if_pos hs, if_neg h4]
  cases ho : (uploadMultipartFile file.size env.initResp.data.partUrls
      env.initResp.data.partSize env.partEvents).outcome with
  | error m => simp [ho]
  | ok parts =>
    simp [ho]
    split <;> rfl

lemma handleFile_multipart_error (file : FileMeta) (env : Env)
    (hv : listStartsWith "video/".data file.type.data = true)
    (hs : file.size > MULTIPART_THRESHOLD)
    (hi : env.initResp.success = true) (msg : String)
    (ho : (uploadMultipartFile file.size env.initResp.data.partUrls
        env.initResp.data.partSize env.partEvents).outcome = .error msg) :
    handleFile .ready file env =
      (.callInitiateMultipart file.name file.type file.size ::
        (uploadMultipartFile file.size env.initResp.data.partUrls
          env.initResp.data.partSize env.partEvents).attempted.map TraceEvent.putPart,
       .errorOut msg) := by
  rw [handleFile_multipart file env hv hs hi, ho]

lemma handleFile_multipart_ok (file : FileMeta) (env : Env)
    (hv : listStartsWith "video/".data file.type.data = true)
    (hs : file.size > MULTIPART_THRESHOLD)
    (hi : env.initResp.success = true) (parts : List CompletedPart)
    (ho : (uploadMultipartFile file.size env.initResp.data.partUrls
        env.initResp.data.partSize env.partEvents).outcome = .ok parts) :
    handleFile .ready file env =
      (.callInitiateMultipart file.name file.type file.size ::
        (uploadMultipartFile file.size env.initResp.data.partUrls
          env.initResp.data.partSize env.partEvents).attempted.map TraceEvent.putPart ++
        [.callCompleteMultipart env.initResp.data.uploadId parts],
       if env.completeResp.success then AppOutcome.done env.completeResp.downloadUrl
       else AppOutcome.errorOut "Failed to complete multipart upload") := by
  rw [handleFile_multipart file env hv hs hi, ho]

lemma handleFile_reject (file : FileMeta) (env : Env)
    (hnv : listStartsWith "video/".data file.type.data = false)
    (hbig : file.size > maxFileSize) :
    handleFile .ready file env = ([], .notStarted) := by
  have h1 : ¬((BackendStatus.ready : BackendStatus) ≠ .ready) := by simp
  have h2 : ¬(listStartsWith "video/".data file.type.data = true)
      ∧ file.size > maxFileSize := ⟨by simp [hnv], hbig⟩
  rw [handleFile, if_neg h1, if_pos h2]

lemma handleFile_single (file : FileMeta) (env : Env)
    (hv : listStartsWith "video/".data file.type.data = true)
    (hs : ¬ file.size > MULTIPART_THRESHOLD) :
    handleFile .ready file env =
      if ¬ env.urlResp.success then
        ([.callGeneratePresignedUrl file.name file.type file.size],
         .errorOut "Failed to generate presigned URL")
      else
        match uploadFileToS3 env.singleEvent with
        | .error m =>
          ([.callGeneratePresignedUrl file.name file.type file.size,
            TraceEvent.putSingle], .errorOut m)
        | .ok _ =>
          ([.callGeneratePresignedUrl file.name file.type file.size,
            TraceEvent.putSingle,
            TraceEvent.callConfirmUpload env.urlResp.data.uploadId],
           if env.confirmResp.success then AppOutcome.done env.confirmResp.downloadUrl
           else AppOutcome.errorOut "Failed to confirm upload") := by
  have h1 : ¬((BackendStatus.ready : BackendStatus) ≠ .ready) := by simp
  have h2 : ¬(¬(listStartsWith "video/".data file.type.data = true)
      ∧ file.size > maxFileSize) := by simp [hv]
  rw [handleFile, if_neg h1, if_neg h2, if_neg hs]
  by_cases hu : env.urlResp.success = true
  · simp only [hu]
    cases ho : uploadFileToS3 env.singleEvent with
    | error m => simp [ho]
    | ok u =>
      simp [ho]
      split <;> rfl
  · simp [hu]

/-! ## Trace-count helpers -/

lemma countAborts_eq_zero (tr : List TraceEvent)
    (h : ∀ e ∈ tr, ∀ sid, e ≠ TraceEvent.callAbortMultipart sid) :
    countAborts tr = 0 := by
  unfold countAborts
  rw [List.countP_eq_zero]
  intro e he
  cases e <;> simp
  case callAbortMultipart sid => exact h _ he sid rfl

lemma countCompletes_eq_zero (tr : List TraceEvent)
    (h : ∀ e ∈ tr, ∀ sid ps, e ≠ TraceEvent.callCompleteMultipart sid ps) :
    countCompletes tr = 0 := by
  unfold countCompletes
  rw [List.countP_eq_zero]
  intro e he
  cases e <;> simp
  case callCompleteMultipart sid ps => exact h _ he sid ps rfl

/-! ## Concrete environments for witnesses and counterexamples -/

/-- Five coordinator-numbered part URLs. -/
def fiveParts : List PartUrl :=
  [{ partNumber := 1, presignedUrl := "u1" }, { partNumber := 2, presignedUrl := "u2" },
   { partNumber := 3, presignedUrl := "u3" }, { partNumber := 4, presignedUrl := "u4" },
   { partNumber := 5, presignedUrl := "u5" }]

/-- Three coordinator-numbered part URLs. -/
def threeParts : List PartUrl :=
  [{ partNumber := 1, presignedUrl := "u1" }, { partNumber := 2, presignedUrl := "u2" },
   { partNumber := 3, presignedUrl := "u3" }]

/-- A 100 MB video file. -/
def bigVideo : FileMeta := { name := "movie.mp4", type := "video/mp4", size := 104857600 }

/-- Environment where parts 1 and 2 succeed with tokens T1, T2 and part 3
fails with a network error. -/
def failAt3Env : Env where
  initResp := { success := true, data := { uploadId := "sess-1", partUrls := fiveParts, partSize := 20971520 } }
  completeResp := { success := true, downloadUrl := "dl" }
  partEvents := fun i => if i < 2 then .load 200 "OK" (some ("T" ++ toString (i + 1))) else .netError
  urlResp := { success := true, data := { uploadId := "uid", presignedUrl := "purl" } }
  singleEvent := .netError
  confirmResp := { success := true, downloadUrl := "dl" }

/-- Environment where every part succeeds with token Ti. -/
def allOkEnv : Env where
  initResp := { success := true, data := { uploadId := "sess-3", partUrls := fiveParts, partSize := 20971520 } }
  completeResp := { success := true, downloadUrl := "dl" }
  partEvents := fun i => .load 200 "OK" (some ("T" ++ toString (i + 1)))
  urlResp := { success := true, data := { uploadId := "uid", presignedUrl := "purl" } }
  singleEvent := .netError
  confirmResp := { success := true, downloadUrl := "dl" }

/-! ## C1 -/

/-- C1 counterexample: in a 5-segment upload whose third segment fails,
the run attempts only segments 1–3 and never calls complete-multipart, but
— against the claim that abort-multipart is called exactly once — the
abort-multipart coordinator call is never made at all. -/
theorem c1_counterexample :
    countAborts (handleFile .ready bigVideo failAt3Env).1 = 0
    ∧ countCompletes (handleFile .ready bigVideo failAt3Env).1 = 0
    ∧ (handleFile .ready bigVideo failAt3Env).1 =
        [.callInitiateMultipart "movie.mp4" "video/mp4" 104857600,
         .putPart 1, .putPart 2, .putPart 3] := by
  decide

/-- C1 amended: when segment k+1 of a segmented upload fails after the
first k succeed, no later segment is attempted, complete-multipart is
never called, the run ends in the error outcome — and abort-multipart is
never called (the orchestrator performs no automatic abort). -/
theorem c1_halt_no_complete_no_abort (file : FileMeta) (env : Env)
    (T : Nat → String) (m : String) (k : Nat)
    (hv : listStartsWith "video/".data file.type.data = true)
    (hsize : file.size > MULTIPART_THRESHOLD)
    (hinit : env.initResp.success = true)
    (hk : k < env.initResp.data.partUrls.length)
    (hok : ∀ j, j < k → uploadPartToS3 (env.partEvents j) = .ok (T j))
    (herr : uploadPartToS3 (env.partEvents k) = .error m) :
    (handleFile .ready file env).1 =
      .callInitiateMultipart file.name file.type file.size ::
        ((env.initResp.data.partUrls.take (k + 1)).map fun pu =>
          TraceEvent.putPart pu.partNumber)
    ∧ countCompletes (handleFile .ready file env).1 = 0
    ∧ countAborts (handleFile .ready file env).1 = 0
    ∧ (handleFile .ready file env).2 =
        .errorOut ("Failed to upload part " ++
          toString (env.initResp.data.partUrls.get ⟨k, hk⟩).partNumber ++ ": " ++ m) := by
  have hok0 : ∀ j, j < k →
      (fun i => uploadPartToS3 (env.partEvents i)) (0 + j) = .ok (T (0 + j)) := by
    intro j hj
    simpa using hok j hj
  have herr0 : (fun i => uploadPartToS3 (env.partEvents i)) (0 + k) = .error m := by
    simpa using herr
  have hrun : uploadMultipartFile file.size env.initResp.data.partUrls
      env.initResp.data.partSize env.partEvents =
      { attempted := ((env.initResp.data.partUrls.take (k + 1)).map PartUrl.partNumber)
        completedParts := manifestFrom T (env.initResp.data.partUrls.take k) 0
        progressReports := reportsOf file.size env.initResp.data.partSize 0 0 k
        outcome := .error ("Failed to upload part " ++
          toString (env.initResp.data.partUrls.get ⟨k, hk⟩).partNumber ++ ": " ++ m) } := by
    unfold uploadMultipartFile
    exact multipartGo_fail file.size env.initResp.data.partSize _ T m
      env.initResp.data.partUrls k 0 0 hk hok0 herr0
  have ho : (uploadMultipartFile file.size env.initResp.data.partUrls
      env.initResp.data.partSize env.partEvents).outcome =
      .error ("Failed to upload part " ++
        toString (env.initResp.data.partUrls.get ⟨k, hk⟩).partNumber ++ ": " ++ m) := by
    rw [hrun]
  rw [handleFile_multipart_error file env hv hsize hinit _ ho]
  refine ⟨?_, ?_, ?_, ?_⟩
  · simp only [hrun]
    rw [List.map_map]
    rfl
  · apply countCompletes_eq_zero
    intro e he sid ps
    simp only [List.mem_cons, List.mem_map] at he
    rcases he with h | ⟨pn, _, h⟩ <;> subst h <;> simp
  · apply countAborts_eq_zero
    intro e he sid
    simp only [List.mem_cons, List.mem_map] at he
    rcases he with h | ⟨pn, _, h⟩ <;> subst h <;> simp
  · rfl

/-- C1 amended witness: the failing-segment scenario instantiated at the
concrete 5-part environment failing on segment 3. -/
theorem c1_halt_no_complete_no_abort_witness :
    (handleFile .ready bigVideo failAt3Env).1 =
      .callInitiateMultipart "movie.mp4" "video/mp4" 104857600 ::
        ((failAt3Env.initResp.data.partUrls.take 3).map fun pu =>
          TraceEvent.putPart pu.partNumber)
    ∧ countCompletes (handleFile .ready bigVideo failAt3Env).1 = 0
    ∧ countAborts (handleFile .ready bigVideo failAt3Env).1 = 0 := by
  have h := c1_halt_no_complete_no_abort bigVideo failAt3Env
    (fun i => "T" ++ toString (i + 1)) "Part upload failed due to network error" 2
    (by decide) (by decide) (by decide) (by decide) (by decide) (by decide)
  exact ⟨h.1, h.2.1, h.2.2.1⟩

/-! ## C3 -/

/-- C3: when the coordinator returns N part URLs numbered 1..N and every
segment transfer succeeds with tokens T 0 .. T (N-1), the trace is the
initiate call, the N part PUTs in index order, and one complete-multipart
call whose manifest is exactly [(1, T 0), ..., (N, T (N-1))] in strictly
increasing index order, one entry per planned segment. -/
theorem c3_manifest_order (file : FileMeta) (env : Env) (N : Nat) (T : Nat → String)
    (hv : listStartsWith "video/".data file.type.data = true)
    (hsize : file.size > MULTIPART_THRESHOLD)
    (hinit : env.initResp.success = true)
    (hlen : env.initResp.data.partUrls.length = N)
    (hnum : ∀ j (h : j < env.initResp.data.partUrls.length),
        (env.initResp.data.partUrls.get ⟨j, h⟩).partNumber = j + 1)
    (hok : ∀ j, j < N → uploadPartToS3 (env.partEvents j) = .ok (T j)) :
    (handleFile .ready file env).1 =
      .callInitiateMultipart file.name file.type file.size ::
        ((List.range N).map fun j => TraceEvent.putPart (j + 1)) ++
        [.callCompleteMultipart env.initResp.data.uploadId
          ((List.range N).map fun j => { PartNumber := j + 1, ETag := T j })] := by
  have hok0 : ∀ j, j < env.initResp.data.partUrls.length →
      (fun i => uploadPartToS3 (env.partEvents i)) (0 + j) = .ok (T (0 + j)) := by
    intro j hj
    simpa using hok j (hlen ▸ hj)
  have hrun : uploadMultipartFile file.size env.initResp.data.partUrls
      env.initResp.data.partSize env.partEvents =
      { attempted := env.initResp.data.partUrls.map PartUrl.partNumber
        completedParts := manifestFrom T env.initResp.data.partUrls 0
        progressReports := reportsOf file.size env.initResp.data.partSize 0 0
          env.initResp.data.partUrls.length
        outcome := .ok (manifestFrom T env.initResp.data.partUrls 0) } := by
    unfold uploadMultipartFile
    exact multipartGo_all_ok file.size env.initResp.data.partSize _ T
      env.initResp.data.partUrls 0 0 hok0
  have hnum0 : ∀ j (h : j < env.initResp.data.partUrls.length),
      (env.initResp.data.partUrls.get ⟨j, h⟩).partNumber = 0 + j + 1 := by
    intro j h
    simpa using hnum j h
  have hmani := manifestFrom_range T env.initResp.data.partUrls 0 hnum0
  have hnums := map_partNumber_range env.initResp.data.partUrls 0 hnum0
  have ho : (uploadMultipartFile file.size env.initResp.data.partUrls
      env.initResp.data.partSize env.partEvents).outcome =
      .ok (manifestFrom T env.initResp.data.partUrls 0) := by
    rw [hrun]
  rw [handleFile_multipart_ok file env hv hsize hinit _ ho]
  simp only [hrun, hmani, hnums, hlen, List.map_map]
  simp [Function.comp]

/-- C3 witness: the all-success scenario instantiated at the concrete
5-part environment, yielding the manifest [(1,T1),...,(5,T5)] in order. -/
theorem c3_manifest_order_witness :
    (handleFile .ready bigVideo allOkEnv).1 =
      [.callInitiateMultipart "movie.mp4" "video/mp4" 104857600,
       .putPart 1, .putPart 2, .putPart 3, .putPart 4, .putPart 5,
       .callCompleteMultipart "sess-3"
         [{ PartNumber := 1, ETag := "T1" }, { PartNumber := 2, ETag := "T2" },
          { PartNumber := 3, ETag := "T3" }, { PartNumber := 4, ETag := "T4" },
          { PartNumber := 5, ETag := "T5" }]] := by
  rw [c3_manifest_order bigVideo allOkEnv 5 (fun i => "T" ++ toString (i + 1))
    (by decide) (by decide) (by decide) (by decide) (by decide) (by decide)]
  decide

/-! ## C4 -/

/-- C4 counterexample: in a 3-segment upload of 100 bytes with segment
size 40 where every segment succeeds, the only progress values ever
reported are 40, 80 and 100 — one report per completed segment — and 55
is never reported, refuting the claim that in-flight bytes contribute to
reported progress. -/
theorem c4_counterexample :
    (uploadMultipartFile 100 threeParts 40
        (fun i => .load 200 "OK" (some ("T" ++ toString (i + 1))))).progressReports
      = [40, 80, 100]
    ∧ ¬ (55 ∈ (uploadMultipartFile 100 threeParts 40
        (fun i => .load 200 "OK" (some ("T" ++ toString (i + 1))))).progressReports) := by
  decide

/-- C4 amended: when all segments succeed, exactly one progress value is
reported per completed segment, equal to the rounded percentage of the
cumulative bytes of the segments completed so far over the total size —
the in-flight segment's partially sent bytes are never included. -/
theorem c4_progress_at_completion (fileSize partSize : Nat) (l : List PartUrl)
    (events : Nat → XhrEvent) (T : Nat → String)
    (hok : ∀ j, j < l.length → uploadPartToS3 (events j) = .ok (T j)) :
    (uploadMultipartFile fileSize l partSize events).progressReports =
      (List.range l.length).map fun j =>
        jsRound100 (cumFrom fileSize partSize 0 (j + 1)) fileSize := by
  have hok0 : ∀ j, j < l.length →
      (fun i => uploadPartToS3 (events i)) (0 + j) = .ok (T (0 + j)) := by
    intro j hj
    simpa using hok j hj
  unfold uploadMultipartFile
  rw [multipartGo_all_ok fileSize partSize _ T l 0 0 hok0]
  simp [reportsOf]

/-- C4 amended witness: the completion-boundary progress sequence at the
concrete 3-segment scenario is [40, 80, 100]. -/
theorem c4_progress_at_completion_witness :
    (uploadMultipartFile 100 threeParts 40
        (fun i => .load 200 "OK" (some ("T" ++ toString (i + 1))))).progressReports
      = [40, 80, 100] := by
  rw [c4_progress_at_completion 100 40 threeParts _
    (fun i => "T" ++ toString (i + 1)) (by decide)]
  decide

/-! ## C10 -/

/-- C10: a non-video file larger than 30 GB is rejected before any
coordinator or transport call (empty trace), while a video file is never
size-gated: whatever its size, the flow proceeds to its first coordinator
call (initiate-multipart or generate-presigned-url). -/
theorem c10_size_gate (file : FileMeta) (env : Env) :
    (listStartsWith "video/".data file.type.data = false → file.size > maxFileSize →
      handleFile .ready file env = ([], .notStarted))
    ∧ (listStartsWith "video/".data file.type.data = true →
        (handleFile .ready file env).1.head? =
            some (.callInitiateMultipart file.name file.type file.size)
          ∨ (handleFile .ready file env).1.head? =
            some (.callGeneratePresignedUrl file.name file.type file.size)) := by
  constructor
  · intro hnv hbig
    exact handleFile_reject file env hnv hbig
  · intro hv
    by_cases hs : file.size > MULTIPART_THRESHOLD
    · left
      by_cases hi : env.initResp.success = true
      · cases ho : (uploadMultipartFile file.size env.initResp.data.partUrls
            env.initResp.data.partSize env.partEvents).outcome with
        | error m =>
          rw [handleFile_multipart_error file env hv hs hi m ho]
          simp
        | ok parts =>
          rw [handleFile_multipart_ok file env hv hs hi parts ho]
          simp
      · have h1 : ¬((BackendStatus.ready : BackendStatus) ≠ .ready) := by simp
        have h2 : ¬(¬(listStartsWith "video/".data file.type.data = true)
            ∧ file.size > maxFileSize) := by simp [hv]
        rw [handleFile, if_neg h1, if_neg h2, if_pos hs, if_pos hi]
        rfl
    · right
      rw [handleFile_single file env hv hs]
      by_cases hu : env.urlResp.success = true
      · simp only [hu]
        rw [if_neg (by simp)]
        cases ho : uploadFileToS3 env.singleEvent with
        | error m => simp [ho]
        | ok u => simp [ho]
      · rw [if_pos (by simp [hu])]
        rfl

/-- C10 witness: a 30 GB + 1 byte archive is rejected with no calls, and a
video file above the multipart threshold proceeds to initiate-multipart. -/
theorem c10_size_gate_witness :
    handleFile .ready { name := "a.zip", type := "application/zip", size := 32212254721 }
        allOkEnv = ([], .notStarted)
    ∧ ((handleFile .ready bigVideo allOkEnv).1.head? =
          some (.callInitiateMultipart "movie.mp4" "video/mp4" 104857600)
        ∨ (handleFile .ready bigVideo allOkEnv).1.head? =
          some (.callGeneratePresignedUrl "movie.mp4" "video/mp4" 104857600)) :=
  ⟨(c10_size_gate { name := "a.zip", type := "application/zip", size := 32212254721 }
      allOkEnv).1 (by decide) (by decide),
   (c10_size_gate bigVideo allOkEnv).2 (by decide)⟩

end Uploader
